import Mathlib

/-!
Shallow embedding of the EchoBot voice-assistant core: the plugin registry
(`src/services/plugin_manager.py`), the intent classifier threshold logic
(`src/services/ml/intent_classifier.py`), the intent-routing loop
(`src/main.py`), and the web orchestrator's tool-calling turn
(`src/web/backend/app.py`, `process_user_request`).

Python dicts are modelled as insertion-ordered association lists whose
update keeps the position of an existing key (exactly Python's `d[k] = v`
semantics).  Python exceptions thrown by external collaborators (LLM
provider, memory store, plugin handlers) are modelled as `Except` values
supplied as oracle parameters; a `try/except` block in the source becomes a
`match` on that `Except`.  Machine floats of the classifier are modelled as
rationals.
-/

deriving instance DecidableEq for Except

namespace EchoBot

/-- Python's `d[k] = v` on an insertion-ordered dict: update in place when
the key is present, append otherwise. -/
def dictInsert (k : String) (v : α) : List (String × α) → List (String × α)
  | [] => [(k, v)]
  | (k', v') :: rest =>
      if k' = k then (k, v) :: rest else (k', v') :: dictInsert k v rest

/-- A plugin instance (class `Plugin` of `src/services/plugin_manager.py`):
static metadata plus its callable behaviour.  `run` models the tool-capable
method that `execute_tool` invokes (`Weather.get_weather`,
`Wikipedia.search`, `WebSearch.search`); `handle` models
`Plugin.handle(intent, entities, context)` (the opaque `context` argument is
elided).  A raised Python exception is an `Except.error`. -/
structure RPlugin where
  name : String
  description : String
  intents : List String
  run : Option String → Except String String
  handle : String → List (String × String) → Except String String

/-- The two dicts of `PluginManager.__init__`: `self.plugins` (name map) and
`self.intent_map`. -/
structure PluginManager where
  plugins : List (String × RPlugin)
  intent_map : List (String × RPlugin)

namespace PluginManager

/-- `PluginManager._register_plugin`, lines 62-73: store the instance under
its name, then map each declared intent to the instance (last writer wins in
both dicts). -/
def _register_plugin (pm : PluginManager) (p : RPlugin) : PluginManager :=
  { plugins := dictInsert p.name p pm.plugins,
    intent_map := p.intents.foldl (fun m i => dictInsert i p m) pm.intent_map }

/-- `PluginManager.get_plugin_for_intent`, lines 75-77. -/
def get_plugin_for_intent (pm : PluginManager) (intent : String) : Option RPlugin :=
  pm.intent_map.lookup intent

/-- `PluginManager.get_all_plugins`, lines 79-84: metadata snapshot of the
name map's values, in insertion order. -/
def get_all_plugins (pm : PluginManager) : List (String × String × List String) :=
  pm.plugins.map (fun nv => (nv.2.name, nv.2.description, nv.2.intents))

/-- A registry built by a finite sequence of registrations starting from the
empty state of `PluginManager.__init__`. -/
def registerAll (ps : List RPlugin) : PluginManager :=
  ps.foldl _register_plugin ⟨[], []⟩

end PluginManager

/-! ## Intent classifier (`src/services/ml/intent_classifier.py`) -/

/-- `np.argmax` over the probability vector: the first index attaining the
maximum (numpy's documented tie-breaking). -/
def argmaxIdx (l : List ℚ) : Nat :=
  l.findIdx (fun x => l.all (fun y => y ≤ x))

/-- `IntentClassifier.predict`, lines 76-92, after `predict_proba`: take the
argmax index, read off confidence and label, and fall back to the sentinel
`"chat"` when the confidence is strictly below the 0.35 threshold. -/
def predict (classes : List String) (probas : List ℚ) : String × ℚ :=
  let max_idx := argmaxIdx probas
  let confidence := probas.getD max_idx 0
  let intent := classes.getD max_idx ""
  if confidence < 0.35 then ("chat", confidence)
  else (intent, confidence)

/-! ## Python string primitives

The Python builtins (`str.split`, `str.startswith`, `str.lower`,
`str.strip`, `in`) are modelled on the character list of the string with
structurally recursive, kernel-computable definitions of their documented
semantics (ASCII case folding and whitespace, which covers all literals the
source uses). -/

/-- Whether the first list is a leading segment of the second. -/
def isHeadSeg : List Char → List Char → Bool
  | [], _ => true
  | _ :: _, [] => false
  | a :: as, b :: bs => a = b && isHeadSeg as bs

/-- Fuelled scanner behind `str.split`: cut at each left-most separator
occurrence and resume after it.  The fuel (the input length) strictly bounds
the scan, making the recursion structural; the fuel never runs out for a
non-empty separator. -/
def pySplitAux (sep : List Char) : Nat → List Char → List Char → List (List Char)
  | 0, rest, acc => [acc.reverse ++ rest]
  | _ + 1, [], acc => [acc.reverse]
  | n + 1, c :: rest, acc =>
      if isHeadSeg sep (c :: rest) then
        acc.reverse :: pySplitAux sep n (List.drop (sep.length - 1) rest) []
      else pySplitAux sep n rest (c :: acc)

/-- Python's `s.split(sep)` for a non-empty separator. -/
def pySplit (s sep : String) : List String :=
  (pySplitAux sep.data s.data.length s.data []).map (fun l => String.mk l)

/-- Python's `sub in s` substring test: the separator occurs iff splitting
on it yields at least two pieces. -/
def pyContains (s sub : String) : Bool :=
  decide (2 ≤ (pySplit s sub).length)

/-- Python's `s.startswith(p)`. -/
def pyStartsWith (s p : String) : Bool :=
  isHeadSeg p.data s.data

/-- ASCII case folding of one character (`str.lower`). -/
def pyCharLower (c : Char) : Char :=
  if 'A' ≤ c ∧ c ≤ 'Z' then Char.ofNat (c.toNat + 32) else c

/-- Python's `s.lower()`. -/
def pyLower (s : String) : String :=
  String.mk (s.data.map pyCharLower)

/-- ASCII whitespace (`str.strip`'s default set, restricted to the
characters that can occur here). -/
def pySpace (c : Char) : Bool :=
  c = ' ' ∨ c = '\t' ∨ c = '\n' ∨ c = '\r'

/-- Python's `s.strip()`. -/
def pyStrip (s : String) : String :=
  String.mk (((s.data.dropWhile pySpace).reverse.dropWhile pySpace).reverse)

/-- Python's `sep.join(parts)`. -/
def pyJoin (sep : String) (parts : List String) : String :=
  String.mk (List.intercalate sep.data (parts.map String.data))

/-- Python's `s[n:]` by character count. -/
def pyDropChars (s : String) (n : Nat) : String :=
  String.mk (s.data.drop n)

/-- Python's `s.split(sep, 1)[1]`: everything after the first occurrence of
the separator. -/
def splitOnceRest (s sep : String) : String :=
  pyJoin sep ((pySplit s sep).drop 1)

/-- Python's `s.rsplit(sep, 1)`: split off everything after the last
occurrence of the separator. -/
def rsplitOnce (s sep : String) : String × String :=
  let ps := pySplit s sep
  (pyJoin sep ps.dropLast, ps.getLastD "")

/-! ## Entity extraction (`src/main.py`, `EchoBot._extract_entities`) -/

/-- `EchoBot._extract_entities`, `src/main.py` lines 130-166: intent-specific
best-effort slicing of the lower-cased text.  The entity dict is an ordered
association list. -/
def _extract_entities (text0 : String) (intent : String) : List (String × String) :=
  let text := pyLower text0
  if intent = "weather" then
    if pyContains text " in " then
      [("location", pyStrip ((pySplit text " in ").getD 1 ""))]
    else []
  else if intent = "search" ∨ intent = "wikipedia" then
    match ["search for ", "search ", "who is ", "what is ", "tell me about "].find?
        (fun pre => pyStartsWith text pre) with
    | some pre => [("query", pyStrip (pyDropChars text pre.data.length))]
    | none => [("query", text)]
  else if intent = "calculate" then
    match ["calculate ", "what is "].find? (fun pre => pyStartsWith text pre) with
    | some pre => [("expression", pyStrip (pyDropChars text pre.data.length))]
    | none => []
  else if intent = "reminder_set" then
    if pyContains text " to " then
      let parts := splitOnceRest text " to "
      if pyContains parts " at " then
        let tt := rsplitOnce parts " at "
        [("task", tt.1), ("time", tt.2)]
      else [("task", parts)]
    else []
  else []

/-! ## Tool schemas and tool execution (`src/services/plugin_manager.py`) -/

/-- One OpenAI-style tool schema, as built by `get_tool_definitions`: each of
the three schemas has one required string parameter. -/
structure ToolDef where
  name : String
  description : String
  paramName : String
  paramDescription : String
deriving DecidableEq

/-- `PluginManager.get_tool_definitions`, lines 86-147: emit a schema for
each of the three tool-capable plugin names that is currently registered, in
the source's fixed order. -/
def PluginManager.get_tool_definitions (pm : PluginManager) : List ToolDef :=
  (if (pm.plugins.lookup "Weather").isSome then
    [{ name := "get_weather",
       description := "Get the current weather for a specific location.",
       paramName := "location",
       paramDescription := "The city and state, e.g. San Francisco, CA" }]
   else []) ++
  (if (pm.plugins.lookup "Wikipedia").isSome then
    [{ name := "search_wikipedia",
       description := "Search Wikipedia for a topic.",
       paramName := "query",
       paramDescription := "The topic to search for" }]
   else []) ++
  (if (pm.plugins.lookup "WebSearch").isSome then
    [{ name := "web_search",
       description := "Search the internet for current events or information.",
       paramName := "query",
       paramDescription := "The search query" }]
   else [])

/-- The f-string of `execute_tool` line 167. -/
def toolNotFoundMsg (tool_name : String) : String :=
  "Tool " ++ tool_name ++ " not found or plugin not loaded."

/-- The `except` clause of `execute_tool` lines 168-170: a raised handler
exception becomes an error string result. -/
def toolOutcome (tool_name : String) : Except String String → String
  | .ok s => s
  | .error e => "Error executing tool " ++ tool_name ++ ": " ++ e

/-- `PluginManager.execute_tool`, lines 149-170: dispatch on the fixed tool
names, look the plugin up under its fixed registry name, call its method
with the single argument read from the argument dict (`arguments.get(...)`),
and catch any exception at this boundary.  Unknown tools, and tools whose
plugin is not loaded, fall through to the not-found message. -/
def PluginManager.execute_tool (pm : PluginManager) (tool_name : String)
    (arguments : List (String × String)) : String :=
  if tool_name = "get_weather" then
    match pm.plugins.lookup "Weather" with
    | some p => toolOutcome tool_name (p.run (arguments.lookup "location"))
    | none => toolNotFoundMsg tool_name
  else if tool_name = "search_wikipedia" then
    match pm.plugins.lookup "Wikipedia" with
    | some p => toolOutcome tool_name (p.run (arguments.lookup "query"))
    | none => toolNotFoundMsg tool_name
  else if tool_name = "web_search" then
    match pm.plugins.lookup "WebSearch" with
    | some p => toolOutcome tool_name (p.run (arguments.lookup "query"))
    | none => toolNotFoundMsg tool_name
  else toolNotFoundMsg tool_name

/-! ## LLM service layer (`src/services/llm/llm_service.py`) -/

/-- One tool invocation requested by the model (`MockToolCall` /
OpenAI `tool_call`): a correlation id, a function name, and the result of
`json.loads` on the raw argument text (`Except.error` = malformed JSON). -/
structure ToolCall where
  id : String
  name : String
  arguments : Except Unit (List (String × String))
deriving DecidableEq

/-- What `LLMService.get_response` hands back to the orchestrator: either a
plain string (legacy/error paths) or a message object with `content` and
`tool_calls` attributes (`MockMessage` or an OpenAI message). -/
inductive LLMRet where
  | str : String → LLMRet
  | msg : Option String → List ToolCall → LLMRet
deriving DecidableEq

/-- The fixed apology of `_get_google_response`'s `except` clause,
`src/services/llm/llm_service.py` line 153. -/
def geminiApology : String := "I'm having trouble thinking with Gemini right now."

/-- `LLMService._get_google_response`, lines 57-153: the whole provider
interaction sits inside one `try`; its outcome is the oracle argument.  A
successful call yields the parsed message; any raised provider error is
caught and becomes a `MockMessage` carrying the fixed apology and no tool
calls — the exception never escapes the service. -/
def getGoogleResponse (apiOutcome : Except String (Option String × List ToolCall)) : LLMRet :=
  match apiOutcome with
  | .ok m => .msg m.1 m.2
  | .error _ => .msg (some geminiApology) []

/-! ## Orchestrator turn (`src/web/backend/app.py`, `process_user_request`) -/

/-- A chat message as (role, content); the orchestrator builds these dicts
inline. -/
abbrev Msg := String × String

/-- One call to `llm_service.get_response`: the message list passed, and the
tool schemas passed (`none` when the `tools` argument is omitted, as in
round 2). -/
structure LlmCall where
  messages : List Msg
  tools : Option (List ToolDef)
deriving DecidableEq

/-- Everything externally observable about one run of
`process_user_request`: the LLM calls made in order, the tool-result
messages appended during TOOL_DISPATCH, the error broadcast of the
round-1-string path, the final broadcast text, the memory queries issued
(text, `n_results`), and the exchanges handed to `memory_service.add`. -/
structure TurnResult where
  llmCalls : List LlmCall
  toolMsgs : List (String × String)
  broadcastError : Option String
  responseText : Option String
  memQueries : List (String × Nat)
  memAddAttempts : List String
deriving DecidableEq

/-- `json.loads(tool_call.function.arguments)` with the bare `except` of
lines 295-298: malformed arguments degrade to the empty dict. -/
def parseArgs : Except Unit (List (String × String)) → List (String × String)
  | .ok a => a
  | .error _ => []

/-- Python's `repr` of a list of strings, as interpolated by
`f"...{relevant_memories}"` (escaping inside the items elided). -/
def pyListRepr (l : List String) : String :=
  "[" ++ pyJoin ", " (l.map (fun s => "'" ++ s ++ "'")) ++ "]"

/-- The substitute of `app.py` lines 319-322 for an empty model reply. -/
def emptyReplyFallback : String := "I'm sorry, I couldn't generate a response."

/-- The `content` attribute of a round-2 return: a plain string is taken as
the text itself (line 313-314), otherwise `final_response.content`. -/
def retContent : LLMRet → Option String
  | .str s => some s
  | .msg c _ => c

/-- `process_user_request`, `src/web/backend/app.py` lines 248-354.
Oracle parameters: `memoryPresent` is `llm_service.memory_service` being
non-`None`; `memQueryRes` the outcome of `memory_service.query(user_text)`
(its own `n_results` default is 3, `vector_store.py` line 39); `memAddRes`
the outcome of `memory_service.add` — both wrapped in `try/except` by the
orchestrator, so a failure only logs; `llm n` the value returned by the
(n+1)-th `llm_service.get_response` call of this turn.  TTS and websocket
transport are not modelled; the broadcast payload text is `responseText`. -/
def process_user_request (userText : String) (memoryPresent : Bool)
    (memQueryRes : Except Unit (List String)) (memAddRes : Except Unit Unit)
    (pm : PluginManager) (llm : Nat → LLMRet) : TurnResult :=
  let memoryContext : String :=
    if memoryPresent then
      match memQueryRes with
      | .ok ms =>
          if ms.isEmpty then ""
          else "\n\nRelevant Past Memories:\n" ++ pyListRepr ms
      | .error _ => ""
    else ""
  let memQueries : List (String × Nat) :=
    if memoryPresent then [(userText, 3)] else []
  let messages : List Msg :=
    [("system", "You are EchoBot, a helpful and witty AI assistant." ++ memoryContext),
     ("user", userText)]
  let tools := pm.get_tool_definitions
  match llm 0 with
  | .str s =>
      -- round-1 error string: broadcast as an error and return early
      { llmCalls := [⟨messages, some tools⟩], toolMsgs := [],
        broadcastError := some s, responseText := none,
        memQueries := memQueries, memAddAttempts := [] }
  | .msg content calls =>
      let step : List LlmCall × List (String × String) × Option String :=
        if calls.isEmpty then ([⟨messages, some tools⟩], [], content)
        else
          let tms := calls.map
            (fun tc => (tc.name, pm.execute_tool tc.name (parseArgs tc.arguments)))
          let round2Msgs : List Msg :=
            messages ++ [("assistant", content.getD "")] ++
              tms.map (fun nr => ("tool", nr.2))
          ([⟨messages, some tools⟩, ⟨round2Msgs, none⟩], tms, retContent (llm 1))
      let finalText : String :=
        match step.2.2 with
        | none => emptyReplyFallback
        | some s => if s.isEmpty then emptyReplyFallback else s
      let adds : List String :=
        if memoryPresent && !finalText.isEmpty then
          ["User: " ++ userText ++ "\nAssistant: " ++ finalText]
        else []
      { llmCalls := step.1, toolMsgs := step.2.1,
        broadcastError := none, responseText := some finalText,
        memQueries := memQueries, memAddAttempts := adds }

/-! ## CLI routing loop (`src/main.py`, `EchoBot.process_input`) -/

/-- The fixed reply of `process_input` line 124 when no plugin is registered
for a confident non-chat intent. -/
def noPluginMsg : String := "I'm not sure how to handle that yet."

/-- The fixed reply of `process_input` line 122 when a plugin handler
raises. -/
def pluginErrorMsg : String := "I encountered an error processing that command."

/-- What one run of `EchoBot.process_input` does, observably: the spoken
response, how many `llm.chat` calls were made, how many memory queries, the
exchanges stored to memory, and the plugins whose `handle` was invoked. -/
structure BotResult where
  response : String
  llmChatCalls : Nat
  memQueryCalls : Nat
  memAdds : List String
  pluginCalls : List String
deriving DecidableEq

/-- `EchoBot.process_input`, `src/main.py` lines 84-128, after the
classifier already produced `(intent, confidence)`.  The chat branch queries
memory, calls `llm.chat` (its reply is the oracle `llmChatResp`) and stores
the exchange; the non-chat branch resolves the intent through the registry
and either invokes the plugin handler (exceptions caught, line 120-122) or,
when no plugin is registered, answers with the fixed `noPluginMsg`. -/
def process_input (text : String) (intent : String) (pm : PluginManager)
    (llmChatResp : String) : BotResult :=
  if intent = "chat" then
    { response := llmChatResp, llmChatCalls := 1, memQueryCalls := 1,
      memAdds := ["User: " ++ text ++ "\nBot: " ++ llmChatResp],
      pluginCalls := [] }
  else
    match pm.get_plugin_for_intent intent with
    | some p =>
        match p.handle intent (_extract_entities text intent) with
        | .ok r =>
            { response := r, llmChatCalls := 0, memQueryCalls := 0,
              memAdds := [], pluginCalls := [p.name] }
        | .error _ =>
            { response := pluginErrorMsg, llmChatCalls := 0, memQueryCalls := 0,
              memAdds := [], pluginCalls := [p.name] }
    | none =>
        { response := noPluginMsg, llmChatCalls := 0, memQueryCalls := 0,
          memAdds := [], pluginCalls := [] }

/-! ## Supporting definitions for the verification -/

/-- Every intent key of the intent map resolves to a plugin whose name is a
key of the name map. -/
def IntentNameInv (pm : PluginManager) : Prop :=
  ∀ i p, pm.intent_map.lookup i = some p → (pm.plugins.lookup p.name).isSome

/-- Every intent key of the intent map resolves to the very instance stored
in the name map under its name. -/
def IntentInstanceInv (pm : PluginManager) : Prop :=
  ∀ i p, pm.intent_map.lookup i = some p → pm.plugins.lookup p.name = some p

/-- Whether an optional model reply counts as empty for the substitution of
`app.py` lines 319-322 (`if not response_text`). -/
def optEmptyStr : Option String → Bool
  | none => true
  | some s => s.isEmpty

/-- Shared dummy behaviours for concrete plugin instances used in closed
statements. -/
def cxRun : Option String → Except String String := fun _ => .ok ""

def cxHandle : String → List (String × String) → Except String String := fun _ _ => .ok ""

def cxP1 : RPlugin := ⟨"A", "first", ["x"], cxRun, cxHandle⟩

def cxP2 : RPlugin := ⟨"A", "second", ["y"], cxRun, cxHandle⟩

def cxPM : PluginManager := PluginManager.registerAll [cxP1, cxP2]

/-- Registry holding a Weather plugin whose tool method raises. -/
def cxWeatherBoom : RPlugin :=
  ⟨"Weather", "weather lookups", ["weather"], fun _ => .error "boom", cxHandle⟩

def cxPMW : PluginManager := PluginManager.registerAll [cxWeatherBoom]

/-- Concrete LLM oracle: round 1 requests one tool, the round-2 reply
requests a tool again (and is ignored). -/
def w1llm : Nat → LLMRet := fun n =>
  if n = 0 then .msg none [⟨"id1", "get_weather", .ok []⟩]
  else .msg (some "done") [⟨"id2", "get_weather", .ok []⟩]

/-- Concrete LLM oracle: round 1 requests a failing tool and then an unknown
tool. -/
def w3llm : Nat → LLMRet := fun n =>
  if n = 0 then
    .msg none [⟨"a", "get_weather", .ok [("location", "London")]⟩,
               ⟨"b", "search_wikipedia", .ok [("query", "Ada")]⟩]
  else .msg (some "done") []

/-- Concrete LLM oracle: every provider call raises with an auth error. -/
def w4llm : Nat → LLMRet := fun _ => getGoogleResponse (.error "auth")

/-- Concrete LLM oracle: round 1 returns a message with missing content and
no tool calls. -/
def w10llm : Nat → LLMRet := fun _ => .msg none []

/-! ## Association-list (Python dict) lemmas -/

theorem lookup_dictInsert_self (k : String) (v : α) (m : List (String × α)) :
    (dictInsert k v m).lookup k = some v := by
  induction m with
  | nil => simp [dictInsert, List.lookup]
  | cons hd tl ih =>
    obtain ⟨k', v'⟩ := hd
    by_cases h : k' = k
    · subst h
      simp [dictInsert, List.lookup]
    · have hbeq : (k == k') = false := beq_eq_false_iff_ne.mpr (Ne.symm h)
      simp [dictInsert, h, List.lookup, hbeq, ih]

theorem lookup_dictInsert_ne (k k' : String) (v : α) (m : List (String × α))
    (h : k' ≠ k) : (dictInsert k v m).lookup k' = m.lookup k' := by
  have hbeq : (k' == k) = false := beq_eq_false_iff_ne.mpr h
  induction m with
  | nil => simp [dictInsert, List.lookup, hbeq]
  | cons hd tl ih =>
    obtain ⟨k₀, v₀⟩ := hd
    by_cases h0 : k₀ = k
    · subst h0
      simp [dictInsert, List.lookup, hbeq]
    · simp only [dictInsert, if_neg h0, List.lookup]
      cases hbk : (k' == k₀) <;> simp [hbk, ih]

theorem dictInsert_dictInsert_self (k : String) (v : α) (m : List (String × α)) :
    dictInsert k v (dictInsert k v m) = dictInsert k v m := by
  induction m with
  | nil => simp [dictInsert]
  | cons hd tl ih =>
    obtain ⟨k', v'⟩ := hd
    by_cases h : k' = k
    · simp [dictInsert, h]
    · simp [dictInsert, h, ih]

theorem lookup_foldl_dictInsert (q : α) (is : List String) (m : List (String × α))
    (j : String) :
    ((is.foldl (fun m i => dictInsert i q m) m).lookup j) =
      if j ∈ is then some q else m.lookup j := by
  induction is generalizing m with
  | nil => simp
  | cons i tl ih =>
    simp only [List.foldl_cons, ih (dictInsert i q m), List.mem_cons]
    by_cases hj : j ∈ tl
    · simp [hj]
    · by_cases hji : j = i
      · subst hji
        simp [hj, lookup_dictInsert_self]
      · simp [hj, hji, lookup_dictInsert_ne _ _ _ _ hji]

/-! ## Classifier argmax lemmas -/

theorem exists_mem_all_le (l : List ℚ) (h : l ≠ []) : ∃ x ∈ l, ∀ y ∈ l, y ≤ x := by
  induction l with
  | nil => exact absurd rfl h
  | cons a tl ih =>
    rcases eq_or_ne tl [] with rfl | htl
    · exact ⟨a, by simp⟩
    · obtain ⟨x, hx, hall⟩ := ih htl
      by_cases hax : a ≤ x
      · refine ⟨x, List.mem_cons_of_mem _ hx, fun y hy => ?_⟩
        rcases List.mem_cons.mp hy with rfl | hy
        · exact hax
        · exact hall y hy
      · refine ⟨a, List.mem_cons_self _ _, fun y hy => ?_⟩
        rcases List.mem_cons.mp hy with rfl | hy
        · exact le_refl y
        · exact (hall y hy).trans (le_of_not_le hax)

theorem argmaxIdx_lt (l : List ℚ) (h : l ≠ []) : argmaxIdx l < l.length := by
  apply List.findIdx_lt_length_of_exists
  obtain ⟨x, hx, hall⟩ := exists_mem_all_le l h
  refine ⟨x, hx, ?_⟩
  simpa [List.all_eq_true] using hall

theorem argmax_getD_spec (l : List ℚ) (h : l ≠ []) :
    l.getD (argmaxIdx l) 0 ∈ l ∧ ∀ y ∈ l, y ≤ l.getD (argmaxIdx l) 0 := by
  have hlt := argmaxIdx_lt l h
  have hgd : l.getD (argmaxIdx l) 0 = l[argmaxIdx l] := List.getD_eq_getElem l 0 hlt
  have hp : (fun x => l.all (fun y => y ≤ x)) l[argmaxIdx l] = true :=
    List.findIdx_getElem (w := hlt)
  constructor
  · rw [hgd]
    exact List.getElem_mem hlt
  · intro y hy
    rw [hgd]
    simp only [List.all_eq_true, decide_eq_true_eq] at hp
    exact hp y hy

/-! ## Claim theorems -/

/-- C2: `IntentClassifier.predict` returns the sentinel `"chat"` together
with the confidence whenever the maximum class probability is strictly below
0.35, and returns the argmax label itself together with the confidence
whenever that maximum is at or above 0.35 (a tie at exactly 0.35 counts as
above threshold).  The first conjunct certifies that the returned confidence
is indeed the maximum class probability. -/
theorem predict_threshold (classes : List String) (probas : List ℚ)
    (h : probas ≠ []) :
    (probas.getD (argmaxIdx probas) 0 ∈ probas ∧
      ∀ y ∈ probas, y ≤ probas.getD (argmaxIdx probas) 0) ∧
    (probas.getD (argmaxIdx probas) 0 < 0.35 →
      predict classes probas = ("chat", probas.getD (argmaxIdx probas) 0)) ∧
    (0.35 ≤ probas.getD (argmaxIdx probas) 0 →
      predict classes probas =
        (classes.getD (argmaxIdx probas) "", probas.getD (argmaxIdx probas) 0)) := by
  refine ⟨argmax_getD_spec probas h, fun hlt => ?_, fun hge => ?_⟩
  · simp only [predict]
    rw [if_pos hlt]
  · simp only [predict]
    rw [if_neg (not_lt.mpr hge)]

/-- Witness for C2: on the concrete distribution `[1, 0]` over labels
`["weather", "chat"]` the confidence 1 is above threshold and the argmax
label `"weather"` is returned. -/
theorem predict_threshold_witness :
    ([(1 : ℚ), 0] ≠ ([] : List ℚ)) ∧
    ((0.35 : ℚ) ≤ [(1 : ℚ), 0].getD (argmaxIdx [(1 : ℚ), 0]) 0) ∧
    predict ["weather", "chat"] [(1 : ℚ), 0] =
      (["weather", "chat"].getD (argmaxIdx [(1 : ℚ), 0]) "",
        [(1 : ℚ), 0].getD (argmaxIdx [(1 : ℚ), 0]) 0) := by
  have harg : argmaxIdx [(1 : ℚ), 0] = 0 := by decide
  have hge : (0.35 : ℚ) ≤ [(1 : ℚ), 0].getD (argmaxIdx [(1 : ℚ), 0]) 0 := by
    rw [harg]
    norm_num
  exact ⟨by decide, hge,
    (predict_threshold ["weather", "chat"] [(1 : ℚ), 0] (by decide)).2.2 hge⟩

/-- C8: registering the same plugin twice leaves the `get_all_plugins`
listing length unchanged — the second registration overwrites the name-map
entry in place instead of duplicating it, in every registry state. -/
theorem register_idempotent_length (pm : PluginManager) (p : RPlugin) :
    ((pm._register_plugin p)._register_plugin p).get_all_plugins.length =
      (pm._register_plugin p).get_all_plugins.length := by
  simp [PluginManager.get_all_plugins, PluginManager._register_plugin,
    dictInsert_dictInsert_self]

/-! ## Registry invariant (C7) -/

theorem intentNameInv_register (pm : PluginManager) (q : RPlugin)
    (h : IntentNameInv pm) : IntentNameInv (pm._register_plugin q) := by
  intro i p hi
  simp only [PluginManager._register_plugin, lookup_foldl_dictInsert] at hi
  by_cases hmem : i ∈ q.intents
  · rw [if_pos hmem] at hi
    cases hi
    simp [PluginManager._register_plugin, lookup_dictInsert_self]
  · rw [if_neg hmem] at hi
    have hold := h i p hi
    simp only [PluginManager._register_plugin]
    by_cases hname : p.name = q.name
    · rw [hname, lookup_dictInsert_self]
      simp
    · rw [lookup_dictInsert_ne _ _ _ _ hname]
      exact hold

theorem intentNameInv_foldl (ps : List RPlugin) :
    ∀ pm : PluginManager, IntentNameInv pm →
      IntentNameInv (ps.foldl PluginManager._register_plugin pm) := by
  induction ps with
  | nil => intro pm h; exact h
  | cons q tl ih =>
    intro pm h
    exact ih _ (intentNameInv_register pm q h)

theorem intentInstanceInv_foldl (ps : List RPlugin) :
    ∀ pm : PluginManager, (ps.map RPlugin.name).Nodup →
      (∀ q ∈ ps, pm.plugins.lookup q.name = none) →
      IntentInstanceInv pm →
      IntentInstanceInv (ps.foldl PluginManager._register_plugin pm) := by
  induction ps with
  | nil => intro pm _ _ h; exact h
  | cons q tl ih =>
    intro pm hnd hfresh h
    rw [List.map_cons, List.nodup_cons] at hnd
    have hndq : q.name ∉ tl.map RPlugin.name := hnd.1
    have hndtl : (tl.map RPlugin.name).Nodup := hnd.2
    refine ih (pm._register_plugin q) hndtl ?_ ?_
    · intro r hr
      have hrq : r.name ≠ q.name := by
        intro hEq
        exact hndq (hEq ▸ List.mem_map_of_mem RPlugin.name hr)
      simp only [PluginManager._register_plugin]
      rw [lookup_dictInsert_ne _ _ _ _ hrq]
      exact hfresh r (List.mem_cons_of_mem _ hr)
    · intro i p hi
      simp only [PluginManager._register_plugin, lookup_foldl_dictInsert] at hi
      by_cases hmem : i ∈ q.intents
      · rw [if_pos hmem] at hi
        cases hi
        simp [PluginManager._register_plugin, lookup_dictInsert_self]
      · rw [if_neg hmem] at hi
        have hold := h i p hi
        have hpq : p.name ≠ q.name := by
          intro hEq
          have := hfresh q (List.mem_cons_self _ _)
          rw [hEq] at hold
          rw [hold] at this
          cases this
        simp only [PluginManager._register_plugin]
        rw [lookup_dictInsert_ne _ _ _ _ hpq]
        exact hold

/-- C7 (amended): in every registry state reachable by a finite sequence of
registrations, every intent key of the intent map resolves to a plugin whose
*name* is a key of the name map; when no two registered plugins share a
name, the resolved plugin is moreover exactly the instance stored in the
name map.  (The instance-level invariant fails for sequences that register
two distinct instances under one name — see the counterexample.) -/
theorem registry_intent_invariant (ps : List RPlugin) :
    IntentNameInv (PluginManager.registerAll ps) ∧
    ((ps.map RPlugin.name).Nodup → IntentInstanceInv (PluginManager.registerAll ps)) := by
  constructor
  · exact intentNameInv_foldl ps ⟨[], []⟩ (by intro i p hi; cases hi)
  · intro hnd
    exact intentInstanceInv_foldl ps ⟨[], []⟩ hnd
      (by intro q _; rfl) (by intro i p hi; cases hi)

/-- Counterexample for C7 as stated: after registering two distinct
instances sharing the name "A", intent "x" still resolves to the first
instance, which is no longer among the name map's stored values. -/
theorem registry_intent_invariant_cx :
    cxPM.get_plugin_for_intent "x" = some cxP1 ∧
    cxPM.plugins.map Prod.snd = [cxP2] ∧
    cxP1 ∉ cxPM.plugins.map Prod.snd := by
  have hv : cxPM.plugins.map Prod.snd = [cxP2] := rfl
  refine ⟨rfl, hv, ?_⟩
  intro hmem
  rw [hv] at hmem
  have h12 : cxP1 = cxP2 := by simpa using hmem
  have := congrArg RPlugin.description h12
  simp [cxP1, cxP2] at this

/-- Witness for C7 (amended): with the single registration of `cxP1` the
names are distinct, and intent "x" resolves to the very instance stored
under "A". -/
theorem registry_intent_invariant_witness :
    (PluginManager.registerAll [cxP1]).plugins.lookup cxP1.name = some cxP1 :=
  (registry_intent_invariant [cxP1]).2 (by simp) "x" cxP1 rfl

/-! ## Orchestrator claims -/

/-- C1: in every turn, a round-1 reply with a non-empty tool-invocation list
leads to exactly one further LLM call, issued without tool schemas; a plain
round-1 text reply (no invocations) leads to no round 2; and no execution
performs more than two LLM rounds, whatever the round-2 reply contains
(tool requests in it are ignored). -/
theorem turn_two_round_cap (userText : String) (mp : Bool)
    (mq : Except Unit (List String)) (ma : Except Unit Unit)
    (pm : PluginManager) (llm : Nat → LLMRet) :
    (∀ c calls, llm 0 = .msg c calls →
      (calls ≠ [] →
        (process_user_request userText mp mq ma pm llm).llmCalls.map LlmCall.tools =
          [some pm.get_tool_definitions, none]) ∧
      (calls = [] →
        (process_user_request userText mp mq ma pm llm).llmCalls.map LlmCall.tools =
          [some pm.get_tool_definitions])) ∧
    (process_user_request userText mp mq ma pm llm).llmCalls.length ≤ 2 := by
  constructor
  · intro c calls hllm
    constructor
    · intro hne
      have hie : calls.isEmpty = false := by
        simpa [List.isEmpty_iff] using hne
      simp [process_user_request, hllm, hie]
    · intro he
      subst he
      simp [process_user_request, hllm]
  · cases hllm : llm 0 with
    | str s => simp [process_user_request, hllm]
    | msg c calls =>
      cases hie : calls.isEmpty <;> simp [process_user_request, hllm, hie]

/-- Witness for C1: with one round-1 tool call, the trace shows exactly two
LLM calls, the second without tool schemas, and the cap of two holds. -/
theorem turn_two_round_cap_witness :
    (process_user_request "hi" true (.ok []) (.ok ())
        (PluginManager.registerAll []) w1llm).llmCalls.map LlmCall.tools =
      [some (PluginManager.registerAll []).get_tool_definitions, none] ∧
    (process_user_request "hi" true (.ok []) (.ok ())
        (PluginManager.registerAll []) w1llm).llmCalls.length ≤ 2 :=
  ⟨((turn_two_round_cap "hi" true (.ok []) (.ok ()) (PluginManager.registerAll [])
      w1llm).1 none [⟨"id1", "get_weather", .ok []⟩] rfl).1 (by simp),
   (turn_two_round_cap "hi" true (.ok []) (.ok ()) (PluginManager.registerAll [])
      w1llm).2⟩

/-- C3: `execute_tool` is total and catches everything at the registry
boundary: an unknown tool name, or a known tool whose backing plugin is not
loaded, yields the not-found message as an ordinary result value; a handler
that raises yields the error string.  During TOOL_DISPATCH the orchestrator
executes every requested invocation, in the order received, and records each
result (error strings included) as that tool's result message — one
invocation's failure never suppresses the rest. -/
theorem execute_tool_boundary (pm : PluginManager) (tool_name : String)
    (args : List (String × String)) :
    (tool_name ∉ ["get_weather", "search_wikipedia", "web_search"] →
      pm.execute_tool tool_name args = toolNotFoundMsg tool_name) ∧
    (tool_name = "get_weather" → pm.plugins.lookup "Weather" = none →
      pm.execute_tool tool_name args = toolNotFoundMsg tool_name) ∧
    (tool_name = "search_wikipedia" → pm.plugins.lookup "Wikipedia" = none →
      pm.execute_tool tool_name args = toolNotFoundMsg tool_name) ∧
    (tool_name = "web_search" → pm.plugins.lookup "WebSearch" = none →
      pm.execute_tool tool_name args = toolNotFoundMsg tool_name) ∧
    (∀ p e, tool_name = "get_weather" → pm.plugins.lookup "Weather" = some p →
      p.run (args.lookup "location") = .error e →
      pm.execute_tool tool_name args =
        "Error executing tool " ++ tool_name ++ ": " ++ e) ∧
    (∀ p e, tool_name = "search_wikipedia" → pm.plugins.lookup "Wikipedia" = some p →
      p.run (args.lookup "query") = .error e →
      pm.execute_tool tool_name args =
        "Error executing tool " ++ tool_name ++ ": " ++ e) ∧
    (∀ p e, tool_name = "web_search" → pm.plugins.lookup "WebSearch" = some p →
      p.run (args.lookup "query") = .error e →
      pm.execute_tool tool_name args =
        "Error executing tool " ++ tool_name ++ ": " ++ e) ∧
    (∀ (userText : String) (mp : Bool) (mq : Except Unit (List String))
        (ma : Except Unit Unit) (llm : Nat → LLMRet) (c : Option String)
        (calls : List ToolCall), llm 0 = .msg c calls →
      (process_user_request userText mp mq ma pm llm).toolMsgs =
        calls.map (fun tc => (tc.name, pm.execute_tool tc.name (parseArgs tc.arguments)))) := by
  refine ⟨?_, ?_, ?_, ?_, ?_, ?_, ?_, ?_⟩
  · intro hni
    simp only [List.mem_cons, List.mem_singleton, not_or] at hni
    obtain ⟨h1, h2, h3, _⟩ := hni
    simp [PluginManager.execute_tool, h1, h2, h3]
  · intro h hl
    subst h
    simp [PluginManager.execute_tool, hl]
  · intro h hl
    subst h
    simp [PluginManager.execute_tool, hl]
  · intro h hl
    subst h
    simp [PluginManager.execute_tool, hl]
  · intro p e h hl hr
    subst h
    simp [PluginManager.execute_tool, hl, hr, toolOutcome]
  · intro p e h hl hr
    subst h
    simp [PluginManager.execute_tool, hl, hr, toolOutcome]
  · intro p e h hl hr
    subst h
    simp [PluginManager.execute_tool, hl, hr, toolOutcome]
  · intro userText mp mq ma llm c calls hllm
    cases hie : calls.isEmpty
    · simp [process_user_request, hllm, hie]
    · have : calls = [] := List.isEmpty_iff.mp hie
      subst this
      simp [process_user_request, hllm]

/-- Witness for C3: the failing tool produces its error string, the unknown
tool its not-found string, and both invocations are dispatched in order. -/
theorem execute_tool_boundary_witness :
    cxPMW.execute_tool "nonsense" [] = toolNotFoundMsg "nonsense" ∧
    cxPMW.execute_tool "get_weather" [("location", "London")] =
      "Error executing tool " ++ "get_weather" ++ ": " ++ "boom" ∧
    (process_user_request "hi" true (.ok []) (.ok ()) cxPMW w3llm).toolMsgs =
      ([⟨"a", "get_weather", .ok [("location", "London")]⟩,
        ⟨"b", "search_wikipedia", .ok [("query", "Ada")]⟩] : List ToolCall).map
        (fun tc => (tc.name, cxPMW.execute_tool tc.name (parseArgs tc.arguments))) :=
  ⟨(execute_tool_boundary cxPMW "nonsense" []).1 (by decide),
   (execute_tool_boundary cxPMW "get_weather" [("location", "London")]).2.2.2.2.1
     cxWeatherBoom "boom" rfl rfl rfl,
   (execute_tool_boundary cxPMW "x" []).2.2.2.2.2.2.2
     "hi" true (.ok []) (.ok ()) w3llm none _ rfl⟩

/-- C4 (amended): when the Gemini provider raises in round 1, the orchestrator
broadcasts the fixed apology string as the normal answer, performs no round 2
and no error broadcast, and the failure never escapes as an exception; the
apology exchange *is*, however, handed to the memory store (best-effort)
whenever the memory service is present — the original claim's "no memory
write" does not hold. -/
theorem provider_error_turn (userText : String) (mp : Bool)
    (mq : Except Unit (List String)) (ma : Except Unit Unit)
    (pm : PluginManager) (llm : Nat → LLMRet) (e : String)
    (h : llm 0 = getGoogleResponse (.error e)) :
    (process_user_request userText mp mq ma pm llm).responseText = some geminiApology ∧
    (process_user_request userText mp mq ma pm llm).llmCalls.length = 1 ∧
    (process_user_request userText mp mq ma pm llm).broadcastError = none ∧
    (process_user_request userText mp mq ma pm llm).memAddAttempts =
      (if mp then ["User: " ++ userText ++ "\nAssistant: " ++ geminiApology] else []) := by
  have h' : llm 0 = .msg (some geminiApology) [] := h
  have hne : geminiApology.isEmpty = false := rfl
  refine ⟨?_, ?_, ?_, ?_⟩ <;>
    simp [process_user_request, h', hne, emptyReplyFallback]

/-- Counterexample for C4 as stated: with the memory service present, the
provider-failure turn *does* write the apology exchange to memory. -/
theorem provider_error_turn_cx :
    (process_user_request "hi" true (.ok []) (.ok ())
        (PluginManager.registerAll []) w4llm).memAddAttempts ≠ [] := by
  decide

/-- Witness for C4 (amended), at the same concrete turn: apology answer, a
single LLM round, no error broadcast, and one attempted memory write. -/
theorem provider_error_turn_witness :
    (process_user_request "hi" true (.ok []) (.ok ())
        (PluginManager.registerAll []) w4llm).responseText = some geminiApology ∧
    (process_user_request "hi" true (.ok []) (.ok ())
        (PluginManager.registerAll []) w4llm).llmCalls.length = 1 :=
  ⟨(provider_error_turn "hi" true (.ok []) (.ok ()) (PluginManager.registerAll [])
      w4llm "auth" rfl).1,
   (provider_error_turn "hi" true (.ok []) (.ok ()) (PluginManager.registerAll [])
      w4llm "auth" rfl).2.1⟩

/-- C5 (amended): when a confident non-chat intent has no plugin registered
for it, `process_input` answers with the fixed string "I'm not sure how to
handle that yet." — a distinct failure response — without any language-model
call, memory access or raised error; it does *not* fall back to the chat
path. -/
theorem no_plugin_fixed_reply (text intent : String) (pm : PluginManager)
    (llmChatResp : String) (h1 : intent ≠ "chat")
    (h2 : pm.get_plugin_for_intent intent = none) :
    process_input text intent pm llmChatResp =
      { response := noPluginMsg, llmChatCalls := 0, memQueryCalls := 0,
        memAdds := [], pluginCalls := [] } := by
  simp only [process_input, if_neg h1, h2]

/-- Counterexample for C5 as stated: with an empty registry and the
confident intent "weather", the response is the fixed failure message and no
language-model (chat) call happens — not a fallback to the chat path. -/
theorem no_plugin_fixed_reply_cx :
    (process_input "what is the weather" "weather"
        (PluginManager.registerAll []) "LLM-REPLY").response = noPluginMsg ∧
    (process_input "what is the weather" "weather"
        (PluginManager.registerAll []) "LLM-REPLY").llmChatCalls = 0 := by
  decide

/-- Witness for C5 (amended) at the same concrete input. -/
theorem no_plugin_fixed_reply_witness :
    process_input "set a timer" "timer" (PluginManager.registerAll []) "LLM-REPLY" =
      { response := noPluginMsg, llmChatCalls := 0, memQueryCalls := 0,
        memAdds := [], pluginCalls := [] } :=
  no_plugin_fixed_reply "set a timer" "timer" (PluginManager.registerAll [])
    "LLM-REPLY" (by decide) rfl

/-- C6: memory is never a hard dependency of a turn.  The orchestrator
issues exactly one memory query per turn (for the default of 3 snippets,
`vector_store.py` line 39); a raising query is caught and the turn proceeds
exactly as with an empty snippet list (empty memory context); and the
outcome of the best-effort `add` at turn end changes nothing observable —
in particular the user-visible response is unchanged and the turn never
aborts. -/
theorem memory_never_hard_dependency (userText : String)
    (mq : Except Unit (List String)) (ma ma' : Except Unit Unit)
    (pm : PluginManager) (llm : Nat → LLMRet) :
    process_user_request userText true (.error ()) ma pm llm =
      process_user_request userText true (.ok []) ma pm llm ∧
    process_user_request userText true mq ma pm llm =
      process_user_request userText true mq ma' pm llm ∧
    (process_user_request userText true mq ma pm llm).memQueries = [(userText, 3)] := by
  refine ⟨rfl, rfl, ?_⟩
  cases hllm : llm 0 <;> simp [process_user_request, hllm]

/-- C9: `_extract_entities` is total (a Lean function, mirroring that the
Python code guards every slice behind the corresponding marker test) and,
whenever an intent's literal markers are absent from the lower-cased text,
returns the entity dict without that entity: empty for weather / calculate /
reminder_set, the whole-text `query` fallback for search / wikipedia, and
empty for every intent without extraction rules. -/
theorem extract_entities_markers (text intent : String) :
    (intent = "weather" → pyContains (pyLower text) " in " = false →
      _extract_entities text intent = []) ∧
    ((intent = "search" ∨ intent = "wikipedia") →
      (∀ pre ∈ ["search for ", "search ", "who is ", "what is ", "tell me about "],
        pyStartsWith (pyLower text) pre = false) →
      _extract_entities text intent = [("query", pyLower text)]) ∧
    (intent = "calculate" →
      (∀ pre ∈ ["calculate ", "what is "], pyStartsWith (pyLower text) pre = false) →
      _extract_entities text intent = []) ∧
    (intent = "reminder_set" → pyContains (pyLower text) " to " = false →
      _extract_entities text intent = []) ∧
    (intent ∉ ["weather", "search", "wikipedia", "calculate", "reminder_set"] →
      _extract_entities text intent = []) := by
  refine ⟨?_, ?_, ?_, ?_, ?_⟩
  · intro h hm
    subst h
    simp [_extract_entities, hm]
  · intro h hp
    have hfind :
        ["search for ", "search ", "who is ", "what is ", "tell me about "].find?
          (fun pre => pyStartsWith (pyLower text) pre) = none :=
      List.find?_eq_none.mpr (by intro x hx; simp [hp x hx])
    rcases h with h | h <;> subst h <;>
      simp [_extract_entities, hfind]
  · intro h hp
    have hfind :
        ["calculate ", "what is "].find?
          (fun pre => pyStartsWith (pyLower text) pre) = none :=
      List.find?_eq_none.mpr (by intro x hx; simp [hp x hx])
    subst h
    simp [_extract_entities, hfind]
  · intro h hm
    subst h
    simp [_extract_entities, hm]
  · intro h
    simp only [List.mem_cons, List.mem_singleton, not_or] at h
    obtain ⟨h1, h2, h3, h4, h5, _⟩ := h
    simp [_extract_entities, h1, h2, h3, h4, h5]

/-- Witness for C9: concrete marker-free inputs for each branch. -/
theorem extract_entities_markers_witness :
    _extract_entities "weather today" "weather" = [] ∧
    _extract_entities "find me pizza" "search" = [("query", "find me pizza")] ∧
    _extract_entities "five plus five" "calculate" = [] ∧
    _extract_entities "remind me" "reminder_set" = [] ∧
    _extract_entities "hello there" "time" = [] :=
  ⟨(extract_entities_markers "weather today" "weather").1 rfl (by decide),
   (extract_entities_markers "find me pizza" "search").2.1 (Or.inl rfl) (by decide),
   (extract_entities_markers "five plus five" "calculate").2.2.1 rfl (by decide),
   (extract_entities_markers "remind me" "reminder_set").2.2.2.1 rfl (by decide),
   (extract_entities_markers "hello there" "time").2.2.2.2 (by decide)⟩

/-- C10: on the non-error path the broadcast text is never empty — whenever
the terminal model message (round-1 content for a no-tools turn, otherwise
the round-2 reply) is empty or missing, the fixed substitute "I'm sorry, I
couldn't generate a response." is broadcast and is also the text written to
memory. -/
theorem nonempty_broadcast (userText : String) (mp : Bool)
    (mq : Except Unit (List String)) (ma : Except Unit Unit)
    (pm : PluginManager) (llm : Nat → LLMRet) (c : Option String)
    (calls : List ToolCall) (h : llm 0 = .msg c calls) :
    (∃ t, (process_user_request userText mp mq ma pm llm).responseText = some t ∧
      t.isEmpty = false) ∧
    (optEmptyStr (if calls.isEmpty then c else retContent (llm 1)) = true →
      (process_user_request userText mp mq ma pm llm).responseText =
        some emptyReplyFallback ∧
      (process_user_request userText mp mq ma pm llm).memAddAttempts =
        (if mp then ["User: " ++ userText ++ "\nAssistant: " ++ emptyReplyFallback]
         else [])) := by
  have hfe : emptyReplyFallback.isEmpty = false := rfl
  cases hie : calls.isEmpty
  · cases hc2 : retContent (llm 1) with
    | none =>
        refine ⟨⟨emptyReplyFallback, ?_, hfe⟩, ?_⟩ <;>
          simp [process_user_request, h, hie, hc2, optEmptyStr, hfe]
    | some s =>
        cases hse : s.isEmpty
        · refine ⟨⟨s, ?_, hse⟩, ?_⟩ <;>
            simp [process_user_request, h, hie, hc2, optEmptyStr, hse, hfe]
        · refine ⟨⟨emptyReplyFallback, ?_, hfe⟩, ?_⟩ <;>
            simp [process_user_request, h, hie, hc2, optEmptyStr, hse, hfe]
  · cases hc : c with
    | none =>
        refine ⟨⟨emptyReplyFallback, ?_, hfe⟩, ?_⟩ <;>
          simp [process_user_request, h, hie, hc, optEmptyStr, hfe]
    | some s =>
        cases hse : s.isEmpty
        · refine ⟨⟨s, ?_, hse⟩, ?_⟩ <;>
            simp [process_user_request, h, hie, hc, optEmptyStr, hse, hfe]
        · refine ⟨⟨emptyReplyFallback, ?_, hfe⟩, ?_⟩ <;>
            simp [process_user_request, h, hie, hc, optEmptyStr, hse, hfe]

/-- Witness for C10: with a missing round-1 content the fixed substitute is
broadcast and written to memory. -/
theorem nonempty_broadcast_witness :
    (process_user_request "hi" true (.ok []) (.ok ())
        (PluginManager.registerAll []) w10llm).responseText =
      some emptyReplyFallback ∧
    (process_user_request "hi" true (.ok []) (.ok ())
        (PluginManager.registerAll []) w10llm).memAddAttempts =
      (if true then ["User: " ++ "hi" ++ "\nAssistant: " ++ emptyReplyFallback]
       else []) :=
  (nonempty_broadcast "hi" true (.ok []) (.ok ()) (PluginManager.registerAll [])
    w10llm none [] rfl).2 rfl

end EchoBot
